import Mathlib

/-!
Shallow embedding of the order-fulfillment core of `src/bottest.py`
(Metro Shop bot): the order state machine, the worker-slot allocator
(`performer_action`), the payment reconciler (`poll_cloudtips_once`,
per-record body), the admin decision handler (`admin_decision`), the
progress handler (`order_progress_callback`) and the payout calculator
(`calculate_and_record_payouts`).

Modelling conventions:
* SQLite tables become lists of rows; `orders` and `products` are
  association lists keyed by the integer primary key.
* Python `float` prices are modelled as rationals; `round(x, 2)` is
  modelled by `round2` below.
* `now_iso()` timestamps are abstracted to a `Nat` argument passed to
  each operation.
* Telegram message sends (side effects) are recorded as a list of
  `Effect` values; delivery failures are swallowed by the source
  (`try/except pass`), so effects are recorded unconditionally.
  Pure UI updates (`edit_message_caption`, admin keyboard rebuilds) are
  not modelled.
* Configuration globals (`ADMIN_IDS`, `NOTIFY_CHAT_IDS`,
  `MAX_WORKERS_PER_ORDER`, `WORKER_PERCENT`) become a `Config` record.
-/

namespace Bottest

/-- `round(x, 2)` of Python on the rational model: round to the nearest
hundredth. (Python rounds exact ties to even; no input in this
development lands on a tie.) -/
def round2 (q : ℚ) : ℚ := ((round (q * 100) : ℤ) : ℚ) / 100

/-- Row of the `products` table (columns used by the core). -/
structure Product where
  name : String
  price : ℚ
deriving DecidableEq, Repr

/-- Row of the `orders` table (columns used by the core). -/
structure Order where
  user_id : Nat
  product_id : Nat
  price : ℚ
  status : String
  created_at : Nat
  admin_notes : Option String
  started_at : Option Nat
  done_at : Option Nat
deriving DecidableEq, Repr

/-- Row of the `order_workers` table. -/
structure OrderWorker where
  order_id : Nat
  worker_id : Nat
  worker_username : String
  taken_at : Nat
deriving DecidableEq, Repr

/-- Row of the `worker_payouts` table. -/
structure WorkerPayout where
  order_id : Nat
  worker_id : Nat
  amount : ℚ
  created_at : Nat
deriving DecidableEq, Repr

/-- The persistent store: the tables the core reads and writes. -/
structure DB where
  products : List (Nat × Product)
  orders : List (Nat × Order)
  order_workers : List OrderWorker
  worker_payouts : List WorkerPayout
deriving DecidableEq, Repr

/-- Configuration globals of bottest.py. -/
structure Config where
  admin_ids : List Nat
  notify_chat_ids : List Int
  max_workers_per_order : Nat
  worker_percent : ℚ
deriving DecidableEq, Repr

/-- Telegram messages sent by the core, abstracted. -/
inductive Effect where
  | buyerAutoPaid (order_id : Nat)
  | adminAutoPaid (order_id : Nat)
  | buyerConfirmed (order_id : Nat)
  | chatConfirmed (chat_id : Int) (order_id : Nat)
  | buyerRejected (order_id : Nat)
  | buyerStatusChanged (order_id : Nat) (status : String)
  | ownerNoWorkers (order_id : Nat)
  | payoutSummary (order_id : Nat)
  | workerPaid (worker_id : Nat) (amount : ℚ)
  | reviewPrompt (order_id : Nat)
deriving DecidableEq, Repr

/-- `SELECT ... FROM orders WHERE id=?` on an association list. -/
def findRow (l : List (Nat × Order)) (oid : Nat) : Option Order :=
  (l.find? (fun p => p.1 = oid)).map Prod.snd

/-- `UPDATE orders SET ... WHERE id=?` on an association list. -/
def mapRow (l : List (Nat × Order)) (oid : Nat) (f : Order → Order) :
    List (Nat × Order) :=
  l.map (fun p => if p.1 = oid then (p.1, f p.2) else p)

/-- Look up an order by id. -/
def getOrder (db : DB) (oid : Nat) : Option Order := findRow db.orders oid

/-- Look up a product by id. -/
def getProduct (db : DB) (pid : Nat) : Option Product :=
  (db.products.find? (fun p => p.1 = pid)).map Prod.snd

/-- Update the order with id `oid` in place. -/
def updateOrder (db : DB) (oid : Nat) (f : Order → Order) : DB :=
  { db with orders := mapRow db.orders oid f }

/-- `SELECT * FROM order_workers WHERE order_id=? ORDER BY id`
(rows are kept in insertion order). -/
def orderWorkerRows (db : DB) (oid : Nat) : List OrderWorker :=
  db.order_workers.filter (fun w => w.order_id = oid)

/-- The worker ids currently assigned to an order
(`SELECT worker_id FROM order_workers WHERE order_id=?`). -/
def assignedWorkers (db : DB) (oid : Nat) : List Nat :=
  (orderWorkerRows db oid).map OrderWorker.worker_id

/-- Number of live assignment rows for an order. -/
def liveAssignmentCount (db : DB) (oid : Nat) : Nat :=
  (orderWorkerRows db oid).length

/-- `worker_payouts` rows recorded for an order. -/
def payoutRows (db : DB) (oid : Nat) : List WorkerPayout :=
  db.worker_payouts.filter (fun p => p.order_id = oid)

/-- `admin_notes` written by `poll_cloudtips_once` on auto-confirm
(src/bottest.py line 79). -/
def autoPaidNote : String := "auto-confirmed (CloudTips polling)"

/-- `admin_notes` written by admin confirm (src/bottest.py line 1239). -/
def adminConfirmNote (admin_id : Nat) : String :=
  "confirmed by admin " ++ toString admin_id

/-- `admin_notes` written by admin reject (src/bottest.py line 1260). -/
def adminRejectNote (admin_id : Nat) : String :=
  "rejected by admin " ++ toString admin_id

/-- Processing of one payment record inside the polling loop of
`poll_cloudtips_once` (src/bottest.py lines 60-91): records without a
payload are skipped; only records with status `paid` lead to a write,
and orders already in `paid` or `done` are skipped. -/
def poll_cloudtips_record (db : DB) (status : String) (payload : Option Nat) :
    DB × List Effect :=
  match payload with
  | none => (db, [])
  | some order_id =>
    if status = "paid" then
      match getOrder db order_id with
      | none => (db, [])
      | some o =>
        if o.status = "paid" ∨ o.status = "done" then (db, [])
        else
          (updateOrder db order_id (fun o =>
             { o with
                 status := "paid"
                 admin_notes := some autoPaidNote }),
           [Effect.buyerAutoPaid order_id, Effect.adminAutoPaid order_id])
    else (db, [])

/-- Row update of admin confirm:
`UPDATE orders SET status='paid', admin_notes=? WHERE id=?`
(src/bottest.py line 1239). -/
def confirmUpdate (admin_id : Nat) : Order → Order := fun o =>
  { o with
      status := "paid"
      admin_notes := some (adminConfirmNote admin_id) }

/-- Row update of admin reject:
`UPDATE orders SET status='rejected', admin_notes=? WHERE id=?`
(src/bottest.py line 1260). -/
def rejectUpdate (admin_id : Nat) : Order → Order := fun o =>
  { o with
      status := "rejected"
      admin_notes := some (adminRejectNote admin_id) }

/-- `admin_decision` (src/bottest.py lines 1190-1272): admin confirm or
reject of an order. The source fetches the product name by `[0][0]`
before writing, so a missing product aborts the handler with an
exception before any write; that abort is modelled as a no-op. No
status guard exists in the source: the `UPDATE` runs whatever the
current status is. -/
def admin_decision (cfg : Config) (db : DB) (admin_id : Nat) (action : String)
    (order_id : Nat) : DB × List Effect :=
  if admin_id ∈ cfg.admin_ids then
    match getOrder db order_id with
    | none => (db, [])
    | some o =>
      match getProduct db o.product_id with
      | none => (db, [])
      | some _ =>
        if action = "confirm" then
          (updateOrder db order_id (confirmUpdate admin_id),
           Effect.buyerConfirmed order_id ::
             cfg.notify_chat_ids.map (fun nid => Effect.chatConfirmed nid order_id))
        else
          (updateOrder db order_id (rejectUpdate admin_id),
           [Effect.buyerRejected order_id])
  else (db, [])

/-- Outcome reported to the tapping worker by `performer_action`
(which answer popup the source shows). -/
inductive PerformerResult where
  | orderNotFound
  | invalidState
  | alreadyClaimed
  | slotsExhausted
  | takeOk
  | notAssigned
  | leaveOk
deriving DecidableEq, Repr

/-- `performer_action` (src/bottest.py lines 1276-1347): a worker takes
or leaves an order. Guards, in source order: order exists; order status
is one of paid / in_progress / delivering; for `take`: not already
assigned, then slot capacity; for `leave`: currently assigned. -/
def performer_action (cfg : Config) (db : DB) (worker_id : Nat)
    (worker_username : String) (action : String) (order_id : Nat) (now : Nat) :
    DB × PerformerResult :=
  match getOrder db order_id with
  | none => (db, .orderNotFound)
  | some o =>
    if o.status ≠ "paid" ∧ o.status ≠ "in_progress" ∧ o.status ≠ "delivering" then
      (db, .invalidState)
    else
      let current_ids := assignedWorkers db order_id
      if action = "take" then
        if worker_id ∈ current_ids then (db, .alreadyClaimed)
        else if cfg.max_workers_per_order ≤ current_ids.length then
          (db, .slotsExhausted)
        else
          ({ db with
               order_workers := db.order_workers ++
                 [⟨order_id, worker_id, worker_username, now⟩] },
           .takeOk)
      else
        if worker_id ∈ current_ids then
          ({ db with
               order_workers := db.order_workers.filter
                 (fun w => ¬(w.order_id = order_id ∧ w.worker_id = worker_id)) },
           .leaveOk)
        else (db, .notAssigned)

/-- `calculate_and_record_payouts` (src/bottest.py lines 1466-1511):
compute `total_for_workers = round(price * WORKER_PERCENT, 2)`, split as
`per_worker = round(total_for_workers / num, 2)` and insert one
`worker_payouts` row per assigned worker; with no workers, only notify
the owner. -/
def calculate_and_record_payouts (cfg : Config) (db : DB) (order_id : Nat)
    (now : Nat) : DB × List Effect :=
  match getOrder db order_id with
  | none => (db, [])
  | some o =>
    let workers := orderWorkerRows db order_id
    if workers.isEmpty then (db, [Effect.ownerNoWorkers order_id])
    else
      let num := workers.length
      let total_for_workers := round2 (o.price * cfg.worker_percent)
      let per_worker := round2 (total_for_workers / (num : ℚ))
      ({ db with
           worker_payouts := db.worker_payouts ++
             workers.map (fun w => ⟨order_id, w.worker_id, per_worker, now⟩) },
       Effect.payoutSummary order_id ::
         workers.map (fun w => Effect.workerPaid w.worker_id per_worker))

/-- `order_progress_callback` (src/bottest.py lines 1371-1463): an
assigned worker or an admin requests a stage change. The status column
is overwritten with the requested string in every branch; entering
`in_progress` also (re)stamps `started_at`, entering `done` also
(re)stamps `done_at`, runs the payout calculator and prompts the buyer
for reviews when workers exist. No branch inspects the old status. -/
def order_progress_callback (cfg : Config) (db : DB) (actor_id : Nat)
    (order_id : Nat) (new_status : String) (now : Nat) : DB × List Effect :=
  if actor_id ∉ assignedWorkers db order_id ∧ actor_id ∉ cfg.admin_ids then
    (db, [])
  else
    match getOrder db order_id with
    | none => (db, [])
    | some _ =>
      let db1 :=
        if new_status = "in_progress" then
          updateOrder db order_id (fun o =>
            { o with
                status := new_status
                started_at := some now })
        else if new_status = "done" then
          updateOrder db order_id (fun o =>
            { o with
                status := new_status
                done_at := some now })
        else
          updateOrder db order_id (fun o => { o with status := new_status })
      let statusNote := [Effect.buyerStatusChanged order_id new_status]
      if new_status = "done" then
        let pr := calculate_and_record_payouts cfg db1 order_id now
        let reviewEffs :=
          if (orderWorkerRows pr.1 order_id).isEmpty then []
          else [Effect.reviewPrompt order_id]
        (pr.1, statusNote ++ pr.2 ++ reviewEffs)
      else (db1, statusNote)

/-- Fresh order id for an insert into `orders`
(AUTOINCREMENT primary key: one more than the largest existing id). -/
def nextOrderId (db : DB) : Nat :=
  db.orders.foldr (fun p m => max p.1 m) 0 + 1

/-- Order creation inside `buy_callback` (src/bottest.py lines
1063-1073): a new order is inserted with the product's current price
snapshotted into the order row and status `awaiting_screenshot`. -/
def buy_callback (db : DB) (user_db_id : Nat) (prod_id : Nat) (now : Nat) :
    DB × Option Nat :=
  match getProduct db prod_id with
  | none => (db, none)
  | some p =>
    let oid := nextOrderId db
    ({ db with
         orders := db.orders ++
           [(oid, { user_id := user_db_id
                    product_id := prod_id
                    price := p.price
                    status := "awaiting_screenshot"
                    created_at := now
                    admin_notes := none
                    started_at := none
                    done_at := none })] },
     some oid)

/-- The `editing_price` stage of `handle_edit_product_flow`
(src/bottest.py lines 714-723): `UPDATE products SET price=? WHERE id=?`.
Only the `products` table is touched. -/
def handle_edit_product_flow_price (db : DB) (pid : Nat) (price : ℚ) : DB :=
  { db with
      products := db.products.map
        (fun p => if p.1 = pid then (p.1, { p.2 with price := price }) else p) }

/-- One `performer_action` invocation, as data, for sequencing. -/
structure PerformerCall where
  worker_id : Nat
  worker_username : String
  action : String
  order_id : Nat
  now : Nat
deriving DecidableEq, Repr

/-- Run a list of `performer_action` calls one at a time. -/
def applyPerformerCalls (cfg : Config) (db : DB) : List PerformerCall → DB
  | [] => db
  | c :: cs =>
      applyPerformerCalls cfg
        (performer_action cfg db c.worker_id c.worker_username c.action
          c.order_id c.now).1 cs

/-- Example configuration: admin id 9, no notification chats, the default
capacity of 3 workers per order and the default 70 percent worker share. -/
def exCfg : Config := ⟨[9], [], 3, 7/10⟩

/-- Example order row in a given status: buyer 10, product 1, price 100. -/
def exOrder (st : String) : Order := ⟨10, 1, 100, st, 0, none, none, none⟩

/-- Example store: product 1 priced 100, order 1 in the given status with
the given assignment rows, no payouts. -/
def exDB (st : String) (ws : List OrderWorker) : DB :=
  ⟨[(1, ⟨"boost", 100⟩)], [(1, exOrder st)], ws, []⟩

/-- Example store for the payout scenario of the spec: order 1 priced 300
with two assigned workers. -/
def exDB300 : DB :=
  ⟨[(1, ⟨"boost", 300⟩)], [(1, ⟨10, 1, 300, "delivering", 0, none, none, none⟩)],
   [⟨1, 5, "w5", 0⟩, ⟨1, 6, "w6", 0⟩], []⟩

/- ------------------------------------------------------------------ -/
/- Store lemmas shared by the claim proofs.                            -/
/- ------------------------------------------------------------------ -/

theorem findRow_mapRow (l : List (Nat × Order)) (oid : Nat) (f : Order → Order) :
    findRow (mapRow l oid f) oid = (findRow l oid).map f := by
  induction l with
  | nil => rfl
  | cons p t ih =>
    by_cases h : p.1 = oid
    · simp [findRow, mapRow, h]
    · simp only [findRow, mapRow] at ih ⊢
      simp only [List.map_cons, if_neg h]
      rw [List.find?_cons_of_neg _ (by simpa using h),
        List.find?_cons_of_neg _ (by simpa using h)]
      exact ih

theorem getOrder_updateOrder (db : DB) (oid : Nat) (f : Order → Order) :
    getOrder (updateOrder db oid f) oid = (getOrder db oid).map f :=
  findRow_mapRow db.orders oid f

theorem mapRow_mapRow_self (l : List (Nat × Order)) (oid : Nat)
    (f : Order → Order) (h : ∀ o, f (f o) = f o) :
    mapRow (mapRow l oid f) oid f = mapRow l oid f := by
  induction l with
  | nil => rfl
  | cons p t ih =>
    by_cases hp : p.1 = oid
    · simp only [mapRow, List.map_cons, if_pos hp] at ih ⊢
      rw [h]
      exact congrArg _ ih
    · simp only [mapRow, List.map_cons, if_neg hp] at ih ⊢
      exact congrArg _ ih

theorem calculate_and_record_payouts_orders (cfg : Config) (db : DB)
    (oid now : Nat) :
    (calculate_and_record_payouts cfg db oid now).1.orders = db.orders := by
  rcases h : getOrder db oid with _ | o <;>
    simp only [calculate_and_record_payouts, h]
  by_cases hw : (orderWorkerRows db oid).isEmpty <;> simp [hw]

theorem getOrder_eq_of_orders_eq {db1 db2 : DB} (h : db1.orders = db2.orders)
    (oid : Nat) : getOrder db1 oid = getOrder db2 oid := by
  unfold getOrder
  rw [h]

/-- Claim C2, counterexample: an order an admin already moved to
`rejected` is not skipped by the reconciler — a `paid` poll record
overwrites its status to `paid`, because the skip list of
`poll_cloudtips_once` contains only `paid` and `done`. -/
theorem C2_reconciler_overwrites_rejected :
    (getOrder (poll_cloudtips_record (exDB "rejected" []) "paid" (some 1)).1 1).map
        Order.status = some "paid" := by decide

/-- Claim C2 (amended): processing a `paid` poll record leaves an order
untouched when its current status is already `paid` or `done` (but not
when it is `rejected`). -/
theorem C2_reconciler_skips_paid_and_done (db : DB) (oid : Nat) (o : Order)
    (ho : getOrder db oid = some o)
    (hs : o.status = "paid" ∨ o.status = "done") :
    poll_cloudtips_record db "paid" (some oid) = (db, []) := by
  simp [poll_cloudtips_record, ho, hs]

theorem C2_reconciler_skips_paid_and_done_witness :
    poll_cloudtips_record (exDB "done" []) "paid" (some 1) = (exDB "done" [], []) :=
  C2_reconciler_skips_paid_and_done (exDB "done" []) 1 (exOrder "done")
    (by decide) (Or.inr rfl)

/-- Claim C8, counterexample: a `failed` oracle record for an unresolved
order causes no transition at all — the order stays
`pending_verification` instead of moving to `rejected`; the polling loop
has no `failed` branch. -/
theorem C8_failed_record_is_ignored :
    poll_cloudtips_record (exDB "pending_verification" []) "failed" (some 1) =
        (exDB "pending_verification" [], [])
    ∧ (getOrder (poll_cloudtips_record (exDB "pending_verification" []) "failed"
        (some 1)).1 1).map Order.status ≠ some "rejected" :=
  ⟨by decide, by decide⟩

/-- Claim C8 (amended): only poll records with status `paid` cause any
write; a record with any other status, `failed` included, is a complete
no-op on the store and produces no effects. -/
theorem C8_non_paid_record_no_op (db : DB) (s : String) (payload : Option Nat)
    (h : s ≠ "paid") : poll_cloudtips_record db s payload = (db, []) := by
  cases payload <;> simp [poll_cloudtips_record, h]

theorem C8_non_paid_record_no_op_witness :
    poll_cloudtips_record (exDB "pending_verification" []) "failed" (some 1) =
      (exDB "pending_verification" [], []) :=
  C8_non_paid_record_no_op _ _ _ (by decide)

/-- Claim C3, counterexample: admin confirm is not guarded by
`pending_verification` — applied to an order already in the terminal
`done` state it still rewrites the status to `paid`; and a repeated
confirm fires its notification side effects again instead of being a
silent no-op. -/
theorem C3_confirm_unguarded_and_refires :
    ((getOrder (admin_decision exCfg (exDB "done" []) 9 "confirm" 1).1 1).map
        Order.status = some "paid")
    ∧ (admin_decision exCfg (admin_decision exCfg (exDB "done" []) 9 "confirm" 1).1
        9 "confirm" 1).2 ≠ [] :=
  ⟨by decide, by decide⟩

/-- Claim C3 (amended): admin confirm carries no status guard — it moves
any existing order (whose product still exists) to `paid` from any
status — and it is idempotent on the stored state: running confirm twice
by the same admin leaves exactly the state one run produces, while the
buyer and chat notifications are re-sent on every invocation rather
than suppressed. -/
theorem C3_admin_confirm_idempotent_on_state (cfg : Config) (db : DB)
    (a oid : Nat) :
    (admin_decision cfg (admin_decision cfg db a "confirm" oid).1 a "confirm" oid).1
      = (admin_decision cfg db a "confirm" oid).1 := by
  by_cases ha : a ∈ cfg.admin_ids
  · rcases ho : getOrder db oid with _ | o
    · simp [admin_decision, ha, ho]
    · rcases hp : getProduct db o.product_id with _ | prod
      · simp [admin_decision, ha, ho, hp]
      · have h1 : (admin_decision cfg db a "confirm" oid).1 =
            updateOrder db oid (confirmUpdate a) := by
          simp [admin_decision, ha, ho, hp]
        rw [h1]
        have ho2 : getOrder (updateOrder db oid (confirmUpdate a)) oid =
            some (confirmUpdate a o) := by
          rw [getOrder_updateOrder, ho]
          rfl
        have hp2 : getProduct (updateOrder db oid (confirmUpdate a))
            (confirmUpdate a o).product_id = some prod := hp
        simp only [admin_decision, if_pos ha, ho2, hp2, if_pos rfl]
        exact congrArg (fun l => DB.mk _ l _ _)
          (mapRow_mapRow_self db.orders oid (confirmUpdate a) (fun _ => rfl))
  · simp [admin_decision, ha]

/-- Claim C7, counterexample: advancing to `in_progress` twice does not
preserve the first start stamp — the second call overwrites `started_at`
with its own time (2), where the claim requires it to stay at the first
call's time (1). -/
theorem C7_second_in_progress_overwrites :
    ((getOrder (order_progress_callback exCfg (exDB "paid" [⟨1, 5, "w5", 0⟩])
        5 1 "in_progress" 1).1 1).map Order.started_at = some (some 1))
    ∧ ((getOrder (order_progress_callback exCfg
        (order_progress_callback exCfg (exDB "paid" [⟨1, 5, "w5", 0⟩])
          5 1 "in_progress" 1).1 5 1 "in_progress" 2).1 1).map
        Order.started_at = some (some 2)) :=
  ⟨by decide, by decide⟩

/-- Claim C7 (amended): every advance to `in_progress` by an assigned
worker or an admin stamps `started_at` with the current call's time,
overwriting any previously stored value — after two calls `started_at`
holds the second call's timestamp, not the first. -/
theorem C7_in_progress_restamps_started_at (cfg : Config) (db : DB)
    (a oid now : Nat) (o : Order)
    (ho : getOrder db oid = some o)
    (ha : a ∈ assignedWorkers db oid ∨ a ∈ cfg.admin_ids) :
    (getOrder (order_progress_callback cfg db a oid "in_progress" now).1 oid).map
        Order.started_at = some (some now) := by
  have hna : ¬(a ∉ assignedWorkers db oid ∧ a ∉ cfg.admin_ids) := by
    rcases ha with h | h <;> exact fun hc => by
      first
        | exact hc.1 h
        | exact hc.2 h
  simp [order_progress_callback, hna, ho, getOrder_updateOrder]

theorem C7_in_progress_restamps_started_at_witness :
    (getOrder (order_progress_callback exCfg (exDB "paid" [⟨1, 5, "w5", 0⟩])
        5 1 "in_progress" 2).1 1).map Order.started_at = some (some 2) :=
  C7_in_progress_restamps_started_at exCfg (exDB "paid" [⟨1, 5, "w5", 0⟩])
    5 1 2 (exOrder "paid") (by decide) (Or.inl (by decide))

/-- Claim C10: for an existing order and an actor who is an assigned
worker or an admin, `order_progress_callback` overwrites the order's
status with the requested stage string unconditionally — whatever the
current status (including `pending_verification`, `rejected`, `done`)
and whatever the requested string, documented stage or not. -/
theorem C10_advance_overwrites_status (cfg : Config) (db : DB)
    (a oid now : Nat) (s : String) (o : Order)
    (ho : getOrder db oid = some o)
    (ha : a ∈ assignedWorkers db oid ∨ a ∈ cfg.admin_ids) :
    (getOrder (order_progress_callback cfg db a oid s now).1 oid).map
        Order.status = some s := by
  have hna : ¬(a ∉ assignedWorkers db oid ∧ a ∉ cfg.admin_ids) := by
    rcases ha with h | h <;> exact fun hc => by
      first
        | exact hc.1 h
        | exact hc.2 h
  by_cases h1 : s = "in_progress"
  · subst h1
    simp [order_progress_callback, hna, ho, getOrder_updateOrder]
  · by_cases h2 : s = "done"
    · subst h2
      have hp := calculate_and_record_payouts_orders cfg
        (updateOrder db oid (fun o =>
          { o with
              status := "done"
              done_at := some now })) oid now
      simp [order_progress_callback, hna, ho, h1,
        getOrder_eq_of_orders_eq hp, getOrder_updateOrder]
    · simp [order_progress_callback, hna, ho, h1, h2, getOrder_updateOrder]

theorem C10_advance_overwrites_status_witness :
    (getOrder (order_progress_callback exCfg (exDB "rejected" []) 9 1
        "banana" 6).1 1).map Order.status = some "banana" :=
  C10_advance_overwrites_status exCfg (exDB "rejected" []) 9 1 6 "banana"
    (exOrder "rejected") (by decide) (Or.inr (by decide))

/-- Claim C1: `order_progress_callback` runs the payout calculator on
every advance to `done`, with no not-already-done guard and no check for
existing payout rows — advancing an order with one assigned worker to
`done` twice leaves two payout rows, not one. The claim's exactly-once
batch is refuted at this input. -/
theorem C1_second_done_duplicates_payouts :
    (payoutRows (order_progress_callback exCfg
        (order_progress_callback exCfg (exDB "paid" [⟨1, 5, "w5", 0⟩])
          5 1 "done" 10).1 5 1 "done" 11).1 1).length = 2 := by decide

/-- One `performer_action` call keeps the live-assignment count of every
order at or under the configured maximum, provided it was under the
maximum before the call. -/
theorem performer_action_preserves_cap (cfg : Config) (db : DB) (w : Nat)
    (u act : String) (coid oid now : Nat)
    (h : liveAssignmentCount db oid ≤ cfg.max_workers_per_order) :
    liveAssignmentCount (performer_action cfg db w u act coid now).1 oid ≤
      cfg.max_workers_per_order := by
  rcases hgo : getOrder db coid with _ | o
  · simpa [performer_action, hgo] using h
  by_cases hst : o.status ≠ "paid" ∧ o.status ≠ "in_progress" ∧
      o.status ≠ "delivering"
  · simpa [performer_action, hgo, hst] using h
  by_cases hact : act = "take"
  · by_cases hw : w ∈ assignedWorkers db coid
    · simpa [performer_action, hgo, hst, hact, hw] using h
    by_cases hmax : cfg.max_workers_per_order ≤ (assignedWorkers db coid).length
    · simpa [performer_action, hgo, hst, hact, hw, hmax] using h
    · simp only [performer_action, hgo, hst, if_false, hact, if_true, hw,
        hmax, if_neg, liveAssignmentCount, orderWorkerRows, ite_false,
        ite_true, List.filter_append, List.length_append]
      by_cases hoid : coid = oid
      · subst hoid
        have hlt : (assignedWorkers db coid).length <
            cfg.max_workers_per_order := Nat.not_le.mp hmax
        have hlen : (assignedWorkers db coid).length =
            (db.order_workers.filter (fun x => x.order_id = coid)).length := by
          simp [assignedWorkers, orderWorkerRows]
        simp only [List.filter_cons, List.filter_nil, decide_eq_true_eq,
          if_true, List.length_cons, List.length_nil]
        omega
      · simp only [List.filter_cons, List.filter_nil, decide_eq_true_eq]
        rw [if_neg hoid]
        simpa [liveAssignmentCount, orderWorkerRows] using h
  · by_cases hw : w ∈ assignedWorkers db coid
    · simp only [performer_action, hgo, hst, if_false, hact, hw, ite_false,
        ite_true, liveAssignmentCount, orderWorkerRows]
      calc ((db.order_workers.filter
              (fun x => ¬(x.order_id = coid ∧ x.worker_id = w))).filter
              (fun x => x.order_id = oid)).length
          = ((db.order_workers.filter (fun x => x.order_id = oid)).filter
              (fun x => ¬(x.order_id = coid ∧ x.worker_id = w))).length := by
            rw [List.filter_comm]
        _ ≤ (db.order_workers.filter (fun x => x.order_id = oid)).length :=
            List.length_filter_le _ _
        _ ≤ cfg.max_workers_per_order := h
    · simpa [performer_action, hgo, hst, hact, hw] using h

/-- Claim C4: running any sequence of take and leave operations one at a
time never pushes the live assignment count of any order above the
configured maximum, provided it started at or under the maximum. -/
theorem C4_live_assignments_bounded (cfg : Config) (db : DB)
    (calls : List PerformerCall) (oid : Nat)
    (h : liveAssignmentCount db oid ≤ cfg.max_workers_per_order) :
    liveAssignmentCount (applyPerformerCalls cfg db calls) oid ≤
      cfg.max_workers_per_order := by
  induction calls generalizing db with
  | nil => exact h
  | cons c cs ih =>
    exact ih _ (performer_action_preserves_cap cfg db c.worker_id
      c.worker_username c.action c.order_id oid c.now h)

theorem C4_live_assignments_bounded_witness :
    liveAssignmentCount (exDB "paid" []) 1 ≤ exCfg.max_workers_per_order ∧
    liveAssignmentCount (applyPerformerCalls exCfg (exDB "paid" [])
      [⟨5, "a", "take", 1, 0⟩, ⟨6, "b", "take", 1, 1⟩, ⟨7, "c", "take", 1, 2⟩,
       ⟨8, "d", "take", 1, 3⟩, ⟨9, "e", "take", 1, 4⟩]) 1 ≤
      exCfg.max_workers_per_order :=
  ⟨by decide, C4_live_assignments_bounded exCfg (exDB "paid" [])
    [⟨5, "a", "take", 1, 0⟩, ⟨6, "b", "take", 1, 1⟩, ⟨7, "c", "take", 1, 2⟩,
     ⟨8, "d", "take", 1, 3⟩, ⟨9, "e", "take", 1, 4⟩] 1 (by decide)⟩

/-- Claim C5: the take operation of `performer_action`, on an existing
order, fails with an invalid-state report unless the status is `paid`,
`in_progress` or `delivering`; fails with an already-claimed report —
store unchanged — when the worker already holds a live assignment; fails
with a slots-exhausted report when the live count is at or above the
configured maximum; and on success appends exactly one assignment row. -/
theorem C5_take_guards (cfg : Config) (db : DB) (w : Nat) (u : String)
    (oid now : Nat) (o : Order) (ho : getOrder db oid = some o) :
    (¬(o.status = "paid" ∨ o.status = "in_progress" ∨ o.status = "delivering") →
      performer_action cfg db w u "take" oid now = (db, .invalidState))
    ∧ ((o.status = "paid" ∨ o.status = "in_progress" ∨ o.status = "delivering") →
        w ∈ assignedWorkers db oid →
        performer_action cfg db w u "take" oid now = (db, .alreadyClaimed))
    ∧ ((o.status = "paid" ∨ o.status = "in_progress" ∨ o.status = "delivering") →
        w ∉ assignedWorkers db oid →
        cfg.max_workers_per_order ≤ (assignedWorkers db oid).length →
        performer_action cfg db w u "take" oid now = (db, .slotsExhausted))
    ∧ ((o.status = "paid" ∨ o.status = "in_progress" ∨ o.status = "delivering") →
        w ∉ assignedWorkers db oid →
        (assignedWorkers db oid).length < cfg.max_workers_per_order →
        performer_action cfg db w u "take" oid now =
          ({ db with
               order_workers := db.order_workers ++ [⟨oid, w, u, now⟩] },
           .takeOk)) := by
  refine ⟨?_, ?_, ?_, ?_⟩
  · intro hs
    push_neg at hs
    simp [performer_action, ho, hs.1, hs.2.1, hs.2.2]
  · intro hs hw
    rcases hs with h | h | h <;> simp [performer_action, ho, h, hw]
  · intro hs hw hm
    rcases hs with h | h | h <;> simp [performer_action, ho, h, hw, hm]
  · intro hs hw hm
    have hm' : ¬(cfg.max_workers_per_order ≤ (assignedWorkers db oid).length) :=
      Nat.not_le.mpr hm
    rcases hs with h | h | h <;> simp [performer_action, ho, h, hw, hm']

theorem C5_take_guards_witness :
    performer_action exCfg (exDB "paid" [⟨1, 5, "w5", 0⟩]) 7 "w7" "take" 1 4 =
      ({ exDB "paid" [⟨1, 5, "w5", 0⟩] with
           order_workers := (exDB "paid" [⟨1, 5, "w5", 0⟩]).order_workers ++
             [⟨1, 7, "w7", 4⟩] },
       .takeOk) :=
  (C5_take_guards exCfg (exDB "paid" [⟨1, 5, "w5", 0⟩]) 7 "w7" 1 4
      (exOrder "paid") (by decide)).2.2.2 (Or.inl rfl) (by decide) (by decide)

/-- Claim C6: with at least one assigned worker, the payout calculator
computes the worker share as `round(price * WORKER_PERCENT, 2)`, splits
it as `round(share / N, 2)` per worker, and appends exactly one payout
row per assigned worker carrying that amount. -/
theorem C6_payout_split (cfg : Config) (db : DB) (oid now : Nat) (o : Order)
    (ho : getOrder db oid = some o)
    (hw : orderWorkerRows db oid ≠ []) :
    (calculate_and_record_payouts cfg db oid now).1.worker_payouts =
      db.worker_payouts ++ (orderWorkerRows db oid).map
        (fun w => ⟨oid, w.worker_id,
          round2 (round2 (o.price * cfg.worker_percent) /
            ((orderWorkerRows db oid).length : ℚ)), now⟩) := by
  have hw' : (orderWorkerRows db oid).isEmpty = false :=
    List.isEmpty_eq_false.mpr hw
  simp [calculate_and_record_payouts, ho, hw']

/-- Spec scenario for C6: price 300, worker share 0.7, two workers — the
rows written are 105 each. -/
theorem C6_payout_split_witness :
    (calculate_and_record_payouts exCfg exDB300 1 7).1.worker_payouts =
      [⟨1, 5, 105, 7⟩, ⟨1, 6, 105, 7⟩] := by
  have h := C6_payout_split exCfg exDB300 1 7
    ⟨10, 1, 300, "delivering", 0, none, none, none⟩ (by decide) (by decide)
  rw [h]
  norm_num [exDB300, exCfg, orderWorkerRows, round2, round_eq]

/-- Every key in an order table is at most the running maximum used to
pick the next fresh id. -/
theorem key_le_fold (l : List (Nat × Order)) (p : Nat × Order) (hp : p ∈ l) :
    p.1 ≤ l.foldr (fun q m => max q.1 m) 0 := by
  induction l with
  | nil => cases hp
  | cons a t ih =>
    rcases List.mem_cons.mp hp with rfl | hp
    · exact le_max_left _ _
    · exact le_trans (ih hp) (le_max_right _ _)

/-- Looking up a freshly appended key finds the appended row. -/
theorem findRow_append_fresh (l : List (Nat × Order)) (k : Nat) (o : Order)
    (h : ∀ p ∈ l, p.1 ≠ k) : findRow (l ++ [(k, o)]) k = some o := by
  induction l with
  | nil => simp [findRow]
  | cons a t ih =>
    have ha : a.1 ≠ k := h a (List.mem_cons_self a t)
    simp only [findRow, List.cons_append]
    rw [List.find?_cons_of_neg _ (by simpa using ha)]
    exact ih fun p hp => h p (List.mem_cons_of_mem a hp)

/-- Claim C9: the order row created by `buy_callback` snapshots the
product's price at creation time, and a later price edit through
`handle_edit_product_flow` touches only the products table — every
order row, the new one included, is left exactly as it was. -/
theorem C9_price_snapshot (db : DB) (uid pid now : Nat) (p : Product)
    (hp : getProduct db pid = some p) :
    ((getOrder (buy_callback db uid pid now).1 (nextOrderId db)).map
        Order.price = some p.price)
    ∧ ∀ pid2 q oid,
        getOrder (handle_edit_product_flow_price (buy_callback db uid pid now).1
            pid2 q) oid
          = getOrder (buy_callback db uid pid now).1 oid := by
  constructor
  · have hfresh : ∀ q ∈ db.orders, q.1 ≠ nextOrderId db := by
      intro q hq
      have := key_le_fold db.orders q hq
      unfold nextOrderId
      omega
    simp only [buy_callback, hp, getOrder]
    rw [findRow_append_fresh db.orders _ _ hfresh]
    rfl
  · intro pid2 q oid
    rfl

theorem C9_price_snapshot_witness :
    (getOrder (buy_callback (exDB "paid" []) 10 1 3).1
        (nextOrderId (exDB "paid" []))).map Order.price = some 100 :=
  (C9_price_snapshot (exDB "paid" []) 10 1 3 ⟨"boost", 100⟩ (by decide)).1

end Bottest
